import Mathlib

/-!
Verification of classy-slack-notifier against its specification.

Shallow embedding of the repository's core modules:
  * `models.py`   — `FilterAction`, `SlackMessage`, `Classification`, `FilterResult`
  * `filters.py`  — `pre_filter`
  * `llm_classifier.py` — `classify` and its `_fallback`
  * `notifier.py` — `_urgency_level`
  * `main.py`     — `handle_message` (decision part, notification calls as data)
  * `config.py`   — `Config`, the keyword part of `_validate_config`, `_parse_action`

External library behaviour (`re`, `json`, `requests`, Python builtins) is
modelled at the interface, executable, for the subset of inputs the program
feeds it: ASCII case folding for `str.lower`, a regex engine with the
metacharacters `| ( ) [ ] . * + ?` and backslash escapes of non-alphanumeric
characters (other escapes are conservatively treated as compile errors), and a
JSON parser for null/true/false/integers/strings/arrays/objects.
Python exceptions are modelled with `Except`: a caught exception inside a
translated function is an `Except.error` of the inner computation, an
exception that escapes the function is an `Except.error` of the function.
-/

namespace ClassyNotifier

/-! ## models.py -/

inductive FilterAction where
  | SKIP
  | CLASSIFY
  | FORCE_NOTIFY
deriving DecidableEq, Repr

structure SlackMessage where
  channel : String
  channel_id : String
  sender : String
  sender_id : String
  text : String
  thread_ts : Option String
  is_dm : Bool
  is_mention : Bool
  is_bot : Bool
deriving DecidableEq, Repr

structure Classification where
  urgency : Int
  reason : String
deriving DecidableEq, Repr

structure FilterResult where
  action : FilterAction
  rule : String
deriving DecidableEq, Repr

/-! ## config.py data model

In the Python source `config.rules` is a dict whose keys are exactly
`VALID_RULE_KEYS = {self, bots, mentions, dms, default}` (unknown keys are
dropped by `load_config`, defaults fill the rest), so it is embedded as a
record with those five fields.  `config.keywords` entries, after
`_validate_config`, always carry a string `pattern` and a parsed `action`. -/

structure Rules where
  self : FilterAction
  bots : FilterAction
  mentions : FilterAction
  dms : FilterAction
  default : FilterAction
deriving DecidableEq, Repr

structure Keyword where
  pattern : String
  action : FilterAction
deriving DecidableEq, Repr

structure Config where
  model : String
  ollama_url : String
  ollama_timeout : Int
  urgency_threshold : Int
  system_prompt : String
  rules : Rules
  channels : List (String × FilterAction)
  keywords : List Keyword
  notification_timeout : Int
deriving DecidableEq, Repr

/-- `DEFAULT_RULES` from config.py. -/
def DEFAULT_RULES : Rules :=
  ⟨FilterAction.SKIP, FilterAction.SKIP, FilterAction.FORCE_NOTIFY,
   FilterAction.FORCE_NOTIFY, FilterAction.CLASSIFY⟩

/-- The `Config()` dataclass defaults from config.py (system prompt elided to
a short stand-in; no claim depends on its text). -/
def defaultConfig : Config :=
  ⟨"llama3.2:3b", "http://localhost:11434", 3, 3, "triage prompt",
   DEFAULT_RULES, [], [], 10⟩

/-- The value checks of `_validate_config` on an already-typed `Config`:
`urgency_threshold` is an integer in [1, 5] and `ollama_timeout` is positive.
(The keyword-shape checks act on raw dict entries and are modelled separately
below as `validateKeyword`.) -/
def ValidConfig (config : Config) : Prop :=
  1 ≤ config.urgency_threshold ∧ config.urgency_threshold ≤ 5 ∧
    0 < config.ollama_timeout

instance (config : Config) : Decidable (ValidConfig config) := by
  unfold ValidConfig; infer_instance

/-! ## Python `str.lower` (ASCII fragment) and substring containment -/

/-- Python `str.lower()` restricted to ASCII letters. -/
def lowerChar (c : Char) : Char :=
  if 65 ≤ c.toNat ∧ c.toNat ≤ 90 then Char.ofNat (c.toNat + 32) else c

/-- Python `str.upper()` restricted to ASCII letters (used by the
IGNORECASE character-class model). -/
def upperChar (c : Char) : Char :=
  if 97 ≤ c.toNat ∧ c.toNat ≤ 122 then Char.ofNat (c.toNat - 32) else c

/-- Lowercase a string given as a character list. -/
def lowerStr (s : List Char) : List Char := s.map lowerChar

/-- `n` is a prefix of `h` (character lists). -/
def isPrefOf : List Char → List Char → Bool
  | [], _ => true
  | _ :: _, [] => false
  | a :: as, b :: bs => a == b && isPrefOf as bs

/-- Python's `n in h` substring test on character lists: `n` occurs
contiguously in `h`. -/
def strIn (n : List Char) : List Char → Bool
  | [] => isPrefOf n []
  | c :: cs => isPrefOf n (c :: cs) || strIn n cs

/-- Python `s.startswith(pre)`. -/
def strStartsWith (s pre : String) : Bool := isPrefOf pre.data s.data

/-! ## Python `re` (model of the fragment the program can feed it)

`re.search(pattern, text, re.IGNORECASE)` first compiles `pattern` (raising
`re.error` on a malformed pattern — modelled as `Except.error`) and then
scans `text` for a match anywhere.  The engine below supports literals, `.`,
character classes (ranges, negation), grouping, alternation, `*`, `+`, `?`,
and backslash escapes of non-alphanumeric characters; everything else is a
compile error in the model. -/

inductive ClassItem where
  | single (c : Char)
  | range (lo hi : Char)
deriving DecidableEq, Repr

inductive RE where
  | emp
  | eps
  | lit (c : Char)
  | dot
  | cls (neg : Bool) (items : List ClassItem)
  | seq (a b : RE)
  | alt (a b : RE)
  | star (r : RE)
deriving DecidableEq, Repr

def nullable : RE → Bool
  | RE.emp => false
  | RE.eps => true
  | RE.lit _ => false
  | RE.dot => false
  | RE.cls _ _ => false
  | RE.seq a b => nullable a && nullable b
  | RE.alt a b => nullable a || nullable b
  | RE.star _ => true

def itemHas : ClassItem → Char → Bool
  | ClassItem.single c, t => c == t
  | ClassItem.range lo hi, t => decide (lo.toNat ≤ t.toNat ∧ t.toNat ≤ hi.toNat)

/-- Character-class test.  `t` is the subject character, already
case-normalized by the caller when `ic` is set; with IGNORECASE a character
matches if either it or its uppercase form is in the class (the ASCII model
of Python's case-insensitive class matching). -/
def classMatch (ic : Bool) (neg : Bool) (items : List ClassItem) (t : Char) : Bool :=
  let hit := items.any (fun it => itemHas it t) ||
    (ic && items.any (fun it => itemHas it (upperChar t)))
  if neg then !hit else hit

/-- Brzozowski derivative with respect to a subject character `t` that the
caller has already case-normalized (see `deriv`). -/
def derivAux (ic : Bool) : RE → Char → RE
  | RE.emp, _ => RE.emp
  | RE.eps, _ => RE.emp
  | RE.lit a, t => if (if ic then lowerChar a else a) == t then RE.eps else RE.emp
  | RE.dot, t => if t == '\n' then RE.emp else RE.eps
  | RE.cls neg items, t => if classMatch ic neg items t then RE.eps else RE.emp
  | RE.seq a b, t =>
      if nullable a then RE.alt (RE.seq (derivAux ic a t) b) (derivAux ic b t)
      else RE.seq (derivAux ic a t) b
  | RE.alt a b, t => RE.alt (derivAux ic a t) (derivAux ic b t)
  | RE.star r, t => RE.seq (derivAux ic r t) (RE.star r)

/-- Derivative by an arbitrary subject character: with IGNORECASE the
character is lowercased first, so matching depends only on the lowercase
image of the text. -/
def deriv (ic : Bool) (r : RE) (c : Char) : RE :=
  derivAux ic r (if ic then lowerChar c else c)

/-- Does `r` match some prefix of `cs`? -/
def reMatchFrom (ic : Bool) (r : RE) : List Char → Bool
  | [] => nullable r
  | c :: cs => nullable r || reMatchFrom ic (deriv ic r c) cs

/-- `re.search` semantics: does `r` match anywhere in `cs`? -/
def reSearch (ic : Bool) (r : RE) : List Char → Bool
  | [] => nullable r
  | c :: cs => reMatchFrom ic r (c :: cs) || reSearch ic r cs

/-- Reject a second repetition character directly after a repeated atom
(Python: "multiple repeat"; possessive quantifiers are outside the model). -/
def noDouble (r : RE) (rest : List Char) : Except String (RE × List Char) :=
  match rest with
  | [] => Except.ok (r, [])
  | c :: _ =>
    if c = '*' ∨ c = '+' ∨ c = '?' then Except.error "multiple repeat"
    else Except.ok (r, rest)

/-- Attach a `* + ?` repetition suffix to a just-parsed atom. -/
def applyRep (a : RE) (cs : List Char) : Except String (RE × List Char) :=
  match cs with
  | '*' :: rest => noDouble (RE.star a) rest
  | '+' :: rest => noDouble (RE.seq a (RE.star a)) rest
  | '?' :: rest => noDouble (RE.alt a RE.eps) rest
  | _ => Except.ok (a, cs)

mutual

/-- alternation level: `seq ('|' seq)*`. -/
def parseAlt : Nat → List Char → Except String (RE × List Char)
  | 0, _ => Except.error "re fuel exhausted"
  | Nat.succ fuel, cs =>
    match parseSeq fuel cs with
    | Except.error e => Except.error e
    | Except.ok (r, rest) =>
      match rest with
      | '|' :: rest2 =>
        match parseAlt fuel rest2 with
        | Except.error e => Except.error e
        | Except.ok (r2, rest3) => Except.ok (RE.alt r r2, rest3)
      | _ => Except.ok (r, rest)

/-- concatenation level: a run of repeated atoms, stopping at `)` or `|`. -/
def parseSeq : Nat → List Char → Except String (RE × List Char)
  | 0, _ => Except.error "re fuel exhausted"
  | Nat.succ fuel, cs =>
    match cs with
    | [] => Except.ok (RE.eps, [])
    | c :: rest =>
      if c = ')' ∨ c = '|' then Except.ok (RE.eps, c :: rest)
      else
        match parseAtom fuel (c :: rest) with
        | Except.error e => Except.error e
        | Except.ok (a, rest2) =>
          match applyRep a rest2 with
          | Except.error e => Except.error e
          | Except.ok (a2, rest3) =>
            match parseSeq fuel rest3 with
            | Except.error e => Except.error e
            | Except.ok (b, rest4) => Except.ok (RE.seq a2 b, rest4)

/-- a single atom: group, class, dot, escape, or literal. -/
def parseAtom : Nat → List Char → Except String (RE × List Char)
  | 0, _ => Except.error "re fuel exhausted"
  | Nat.succ fuel, cs =>
    match cs with
    | [] => Except.error "nothing to parse"
    | c :: rest =>
      if c = '(' then
        match parseAlt fuel rest with
        | Except.error e => Except.error e
        | Except.ok (r, rest2) =>
          match rest2 with
          | ')' :: rest3 => Except.ok (r, rest3)
          | _ => Except.error "missing ), unterminated subpattern"
      else if c = '[' then
        match rest with
        | '^' :: rest2 =>
          match parseClassItems fuel rest2 true [] with
          | Except.error e => Except.error e
          | Except.ok (items, rest3) => Except.ok (RE.cls true items, rest3)
        | _ =>
          match parseClassItems fuel rest true [] with
          | Except.error e => Except.error e
          | Except.ok (items, rest3) => Except.ok (RE.cls false items, rest3)
      else if c = '.' then Except.ok (RE.dot, rest)
      else if c = '\\' then
        match rest with
        | [] => Except.error "bad escape (end of pattern)"
        | e :: rest2 =>
          if e.isAlphanum then Except.error "escape outside modelled fragment"
          else Except.ok (RE.lit e, rest2)
      else if c = '*' ∨ c = '+' ∨ c = '?' then Except.error "nothing to repeat"
      else if c = '^' ∨ c = '$' then Except.error "anchor outside modelled fragment"
      else Except.ok (RE.lit c, rest)

/-- body of a character class, after `[` (and optional `^`); a `]` in first
position is a literal, as in Python. -/
def parseClassItems :
    Nat → List Char → Bool → List ClassItem → Except String (List ClassItem × List Char)
  | 0, _, _, _ => Except.error "re fuel exhausted"
  | Nat.succ fuel, cs, first, acc =>
    match cs with
    | [] => Except.error "unterminated character set"
    | c :: rest =>
      if c = ']' ∧ first = false then Except.ok (acc.reverse, rest)
      else
        match (if c = '\\' then
                 match rest with
                 | [] => Except.error "bad escape (end of pattern)"
                 | e :: rest2 =>
                   if e.isAlphanum then Except.error "escape outside modelled fragment"
                   else Except.ok (e, rest2)
               else (Except.ok (c, rest) : Except String (Char × List Char))) with
        | Except.error e => Except.error e
        | Except.ok (k, r) =>
          match r with
          | '-' :: d :: r2 =>
            if d = ']' then parseClassItems fuel r false (ClassItem.single k :: acc)
            else if d = '\\' then Except.error "escape outside modelled fragment"
            else if k.toNat ≤ d.toNat then
              parseClassItems fuel r2 false (ClassItem.range k d :: acc)
            else Except.error "bad character range"
          | _ => parseClassItems fuel r false (ClassItem.single k :: acc)

end

/-- `re.compile` on the modelled fragment: parse the whole pattern;
a leftover `)` is an unbalanced parenthesis. -/
def compileRegex (s : String) : Except String RE :=
  match parseAlt ((s.length + 1) * 8) s.data with
  | Except.error e => Except.error e
  | Except.ok (r, []) => Except.ok r
  | Except.ok (_, _ :: _) => Except.error "unbalanced parenthesis"

/-! ## filters.py -/

/-- One keyword test from the loop body of `pre_filter`:
`regex:`-tagged patterns go through `re.search(..., re.IGNORECASE)` (whose
compile step can raise, modelled as `Except.error`), plain patterns through
the case-insensitive substring test `pattern.lower() in msg.text.lower()`. -/
def keywordMatch (pattern : String) (text : String) : Except String Bool :=
  if strStartsWith pattern "regex:" then
    match compileRegex (String.drop pattern 6) with
    | Except.error e => Except.error e
    | Except.ok r => Except.ok (reSearch true r text.data)
  else
    Except.ok (strIn (lowerStr pattern.data) (lowerStr text.data))

/-- The `for kw in config.keywords` loop of `pre_filter`:
first matching entry wins; a regex compile error escapes the loop. -/
def keywordScan (kws : List Keyword) (text : String) :
    Except String (Option FilterResult) :=
  match kws with
  | [] => Except.ok none
  | kw :: rest =>
    match keywordMatch kw.pattern text with
    | Except.error e => Except.error e
    | Except.ok true =>
        Except.ok (some ⟨kw.action, "keyword:" ++ kw.pattern⟩)
    | Except.ok false => keywordScan rest text

/-- `pre_filter` from filters.py.  The `Except.error` case is the Python
`re.error` escaping the keyword loop; every other path returns a
`FilterResult`. -/
def pre_filter (msg : SlackMessage) (config : Config) (bot_user_id : String) :
    Except String FilterResult :=
  if msg.sender_id = bot_user_id then
    Except.ok ⟨config.rules.self, "self"⟩
  else if msg.is_bot then
    Except.ok ⟨config.rules.bots, "bots"⟩
  else
    match keywordScan config.keywords msg.text with
    | Except.error e => Except.error e
    | Except.ok (some r) => Except.ok r
    | Except.ok none =>
      if msg.is_mention then
        Except.ok ⟨config.rules.mentions, "mentions"⟩
      else if msg.is_dm then
        Except.ok ⟨config.rules.dms, "dms"⟩
      else
        match config.channels.lookup msg.channel with
        | some a => Except.ok ⟨a, "channel:" ++ msg.channel⟩
        | none => Except.ok ⟨config.rules.default, "default"⟩

/-! ## Python JSON values and `json.loads` (modelled fragment)

`json.loads` is modelled for null / true / false / integers / strings /
arrays / objects (floats and duplicate-key overwriting are outside the
fragment the claims exercise); a parse failure is `json.JSONDecodeError`,
a `ValueError` subclass. -/

inductive JVal where
  | null
  | bool (b : Bool)
  | num (n : Int)
  | str (s : String)
  | arr (xs : List JVal)
  | obj (fields : List (String × JVal))

def skipWs : List Char → List Char
  | [] => []
  | c :: cs => if c = ' ' ∨ c = '\n' ∨ c = '\t' ∨ c = '\r' then skipWs cs else c :: cs

def parseJDigits (cs : List Char) (acc : Nat) (seen : Bool) :
    Except String (Nat × List Char) :=
  match cs with
  | [] => if seen then Except.ok (acc, []) else Except.error "Expecting value"
  | c :: rest =>
    if c.isDigit then parseJDigits rest (acc * 10 + (c.toNat - 48)) true
    else if seen then Except.ok (acc, c :: rest)
    else Except.error "Expecting value"

def parseJStrChars (fuel : Nat) (cs : List Char) (acc : List Char) :
    Except String (String × List Char) :=
  match fuel with
  | 0 => Except.error "json fuel exhausted"
  | Nat.succ fuel =>
    match cs with
    | [] => Except.error "Unterminated string"
    | '"' :: rest => Except.ok (String.mk acc.reverse, rest)
    | '\\' :: e :: rest =>
      if e = '"' ∨ e = '\\' ∨ e = '/' then parseJStrChars fuel rest (e :: acc)
      else if e = 'n' then parseJStrChars fuel rest ('\n' :: acc)
      else if e = 't' then parseJStrChars fuel rest ('\t' :: acc)
      else Except.error "Invalid escape"
    | '\\' :: [] => Except.error "Unterminated string"
    | c :: rest => parseJStrChars fuel rest (c :: acc)

mutual

def parseJVal : Nat → List Char → Except String (JVal × List Char)
  | 0, _ => Except.error "json fuel exhausted"
  | Nat.succ fuel, cs =>
    match skipWs cs with
    | [] => Except.error "Expecting value"
    | c :: rest =>
      if c = 'n' then
        match rest with
        | 'u' :: 'l' :: 'l' :: rest2 => Except.ok (JVal.null, rest2)
        | _ => Except.error "Expecting value"
      else if c = 't' then
        match rest with
        | 'r' :: 'u' :: 'e' :: rest2 => Except.ok (JVal.bool true, rest2)
        | _ => Except.error "Expecting value"
      else if c = 'f' then
        match rest with
        | 'a' :: 'l' :: 's' :: 'e' :: rest2 => Except.ok (JVal.bool false, rest2)
        | _ => Except.error "Expecting value"
      else if c = '"' then
        match parseJStrChars (rest.length + 1) rest [] with
        | Except.error e => Except.error e
        | Except.ok (s, rest2) => Except.ok (JVal.str s, rest2)
      else if c = '-' then
        match parseJDigits rest 0 false with
        | Except.error e => Except.error e
        | Except.ok (n, rest2) => Except.ok (JVal.num (-(n : Int)), rest2)
      else if c.isDigit then
        match parseJDigits (c :: rest) 0 false with
        | Except.error e => Except.error e
        | Except.ok (n, rest2) => Except.ok (JVal.num (n : Int), rest2)
      else if c = '[' then
        match skipWs rest with
        | ']' :: rest2 => Except.ok (JVal.arr [], rest2)
        | other => parseJArrItems fuel other []
      else if c = '\x7b' then
        match skipWs rest with
        | '\x7d' :: rest2 => Except.ok (JVal.obj [], rest2)
        | other => parseJObjItems fuel other []
      else Except.error "Expecting value"

def parseJArrItems : Nat → List Char → List JVal → Except String (JVal × List Char)
  | 0, _, _ => Except.error "json fuel exhausted"
  | Nat.succ fuel, cs, acc =>
    match parseJVal fuel cs with
    | Except.error e => Except.error e
    | Except.ok (v, rest) =>
      match skipWs rest with
      | ',' :: rest2 => parseJArrItems fuel rest2 (v :: acc)
      | ']' :: rest2 => Except.ok (JVal.arr (v :: acc).reverse, rest2)
      | _ => Except.error "Expecting comma"

def parseJObjItems :
    Nat → List Char → List (String × JVal) → Except String (JVal × List Char)
  | 0, _, _ => Except.error "json fuel exhausted"
  | Nat.succ fuel, cs, acc =>
    match skipWs cs with
    | '"' :: rest =>
      match parseJStrChars (rest.length + 1) rest [] with
      | Except.error e => Except.error e
      | Except.ok (k, rest2) =>
        match skipWs rest2 with
        | ':' :: rest3 =>
          match parseJVal fuel rest3 with
          | Except.error e => Except.error e
          | Except.ok (v, rest4) =>
            match skipWs rest4 with
            | ',' :: rest5 => parseJObjItems fuel rest5 ((k, v) :: acc)
            | '\x7d' :: rest5 => Except.ok (JVal.obj ((k, v) :: acc).reverse, rest5)
            | _ => Except.error "Expecting comma"
        | _ => Except.error "Expecting colon"
    | _ => Except.error "Expecting property name"

end

/-- `json.loads` on the modelled fragment: parse one value, then only
whitespace may remain. -/
def jsonParse (s : String) : Except String JVal :=
  match parseJVal ((s.length + 1) * 2) s.data with
  | Except.error e => Except.error e
  | Except.ok (v, rest) =>
    match skipWs rest with
    | [] => Except.ok v
    | _ :: _ => Except.error "Extra data"

/-- Python subscription `v[key]` with a string key: `KeyError` when the key
is absent from a dict, `TypeError` when `v` is not a dict.  Both exception
types are in `classify`'s second `except` clause. -/
def jsonIndex (v : JVal) (key : String) : Except String JVal :=
  match v with
  | JVal.obj fields =>
    match fields.lookup key with
    | some x => Except.ok x
    | none => Except.error ("KeyError: " ++ key)
  | _ => Except.error "TypeError: not subscriptable by str"

/-- Digit-run part of Python `int(s)`: a nonempty digit run followed by at
most trailing spaces (`ValueError` otherwise). -/
def pyIntTail (cs : List Char) (negSign : Bool) : Except String Int :=
  match parseJDigits cs 0 false with
  | Except.error _ => Except.error "ValueError: invalid literal for int"
  | Except.ok (n, rest) =>
    match skipWs rest with
    | [] => Except.ok (if negSign then -(n : Int) else (n : Int))
    | _ :: _ => Except.error "ValueError: invalid literal for int"

/-- Python `int(s)` on a string: optional surrounding spaces, optional sign,
then a nonempty digit run. -/
def pyIntOfStr (s : String) : Except String Int :=
  match skipWs s.data with
  | '-' :: rest => pyIntTail rest true
  | '+' :: rest => pyIntTail rest false
  | other => pyIntTail other false

/-- Python `int(x)` on a parsed-JSON value (`bool` is an `int` in Python;
`None`, lists and dicts raise `TypeError`). -/
def pyInt : JVal → Except String Int
  | JVal.num n => Except.ok n
  | JVal.str s => pyIntOfStr s
  | JVal.bool b => Except.ok (if b then 1 else 0)
  | _ => Except.error "TypeError: int() argument"

mutual

/-- Python `str(x)` on a parsed-JSON value.  `str` of a string is the string
itself; the container cases render an approximation of Python's `repr`
(no claim depends on them). -/
def pyStr : JVal → String
  | JVal.null => "None"
  | JVal.bool b => if b then "True" else "False"
  | JVal.num n => toString n
  | JVal.str s => s
  | JVal.arr xs => "[" ++ renderArr xs ++ "]"
  | JVal.obj fields => "\x7b" ++ renderObj fields ++ "\x7d"

def renderArr : List JVal → String
  | [] => ""
  | [x] => pyStr x
  | x :: y :: xs => pyStr x ++ ", " ++ renderArr (y :: xs)

def renderObj : List (String × JVal) → String
  | [] => ""
  | [(k, v)] => k ++ ": " ++ pyStr v
  | (k, v) :: kv :: kvs => k ++ ": " ++ pyStr v ++ ", " ++ renderObj (kv :: kvs)

end

/-! ## llm_classifier.py

The network round-trip of `requests.post` plus `resp.json()` is external;
its possible outcomes are the value of type `LLMOutcome` below:
a `requests.ConnectionError`, a `requests.Timeout`, or a response with a
status code and a body (`none` = `resp.json()` raised its
`JSONDecodeError`, a `ValueError` subclass).  Everything `classify` does
with the outcome is translated from the source. -/

inductive LLMOutcome where
  | connError (s : String)
  | timeoutErr (s : String)
  | response (status : Nat) (body : Option JVal)

/-- The one exception that escapes `classify`: `requests.HTTPError` from
`resp.raise_for_status()` is neither a `ConnectionError`/`Timeout` nor one
of `KeyError`/`TypeError`/`ValueError`/`json.JSONDecodeError`, so neither
`except` clause catches it. -/
inductive PyErr where
  | httpError (status : Nat)
deriving DecidableEq, Repr

/-- `_build_user_content` from llm_classifier.py. -/
def buildUserContent (msg : SlackMessage) : String :=
  "Channel: " ++ msg.channel ++ "\n" ++
  "Sender: " ++ msg.sender ++ "\n" ++
  "DM: " ++ (if msg.is_dm then "yes" else "no") ++ "\n" ++
  "Message: " ++ msg.text

/-- The fixed fallback reason string from `_fallback`. -/
def FALLBACK_REASON : String := "LLM unavailable — notifying as precaution"

/-- `_fallback` from llm_classifier.py (the `context` argument is only
logged, not part of the returned value). -/
def fallbackClassification (config : Config) : Classification :=
  ⟨config.urgency_threshold, FALLBACK_REASON⟩

/-- The parsing chain of `classify`'s `try` block after `resp.json()`:
`content = json.loads(data["message"]["content"])`,
`urgency = int(content["urgency"])`, `reason = str(content["reason"])`.
Every `Except.error` here is a `KeyError`/`TypeError`/`ValueError`/
`json.JSONDecodeError`, i.e. caught by the second `except` clause. -/
def parseContent (data : JVal) : Except String (Int × String) :=
  match jsonIndex data "message" with
  | Except.error e => Except.error e
  | Except.ok m =>
    match jsonIndex m "content" with
    | Except.error e => Except.error e
    | Except.ok contentVal =>
      match contentVal with
      | JVal.str s =>
        match jsonParse s with
        | Except.error e => Except.error e
        | Except.ok content =>
          match jsonIndex content "urgency" with
          | Except.error e => Except.error e
          | Except.ok uv =>
            match pyInt uv with
            | Except.error e => Except.error e
            | Except.ok u =>
              match jsonIndex content "reason" with
              | Except.error e => Except.error e
              | Except.ok rv => Except.ok (u, pyStr rv)
      | _ => Except.error "TypeError: json.loads argument"

/-- `classify` from llm_classifier.py.  `raise_for_status` raises
`requests.HTTPError` for 4xx/5xx status codes; on the success path the
urgency is clamped into [1, 5] by `max(1, min(5, urgency))`. -/
def classify (msg : SlackMessage) (config : Config) (outcome : LLMOutcome) :
    Except PyErr Classification :=
  match outcome with
  | LLMOutcome.connError _ => Except.ok (fallbackClassification config)
  | LLMOutcome.timeoutErr _ => Except.ok (fallbackClassification config)
  | LLMOutcome.response status body =>
    if 400 ≤ status ∧ status < 600 then Except.error (PyErr.httpError status)
    else
      match body with
      | none => Except.ok (fallbackClassification config)
      | some data =>
        match parseContent data with
        | Except.error _ => Except.ok (fallbackClassification config)
        | Except.ok (u, r) => Except.ok ⟨max 1 (min 5 u), r⟩

/-! ## notifier.py -/

/-- `_urgency_level` from notifier.py. -/
def urgency_level (urgency : Option Int) : String :=
  match urgency with
  | none => "normal"
  | some u => if u ≤ 2 then "low" else if u ≤ 3 then "normal" else "critical"

/-- One call to `notify` in main.py, recorded as data: the message, the
`reason` argument, and the `urgency` keyword (absent on the force-notify
path). -/
structure NotifyCall where
  msg : SlackMessage
  reason : String
  urgency : Option Int
deriving DecidableEq, Repr

/-! ## main.py -/

/-- An exception escaping `handle_message`: either `re.error` out of
`pre_filter`, or `requests.HTTPError` out of `classify`. -/
inductive HandlerErr where
  | reErr (e : String)
  | llmErr (e : PyErr)
deriving DecidableEq, Repr

/-- `handle_message` from main.py, with `listener.parse_event` (external)
already applied — `none` models a message it dropped — and the external LLM
interaction summarised by `outcome`.  Returns the list of `notify` calls
made. -/
def handle_message (parsed : Option SlackMessage) (config : Config)
    (bot_user_id : String) (outcome : LLMOutcome) :
    Except HandlerErr (List NotifyCall) :=
  match parsed with
  | none => Except.ok []
  | some msg =>
    match pre_filter msg config bot_user_id with
    | Except.error e => Except.error (HandlerErr.reErr e)
    | Except.ok result =>
      match result.action with
      | FilterAction.SKIP => Except.ok []
      | FilterAction.FORCE_NOTIFY =>
          Except.ok [⟨msg, "Matched rule: " ++ result.rule, none⟩]
      | FilterAction.CLASSIFY =>
        match classify msg config outcome with
        | Except.error e => Except.error (HandlerErr.llmErr e)
        | Except.ok cl =>
          if cl.urgency ≥ config.urgency_threshold then
            Except.ok [⟨msg, cl.reason, some cl.urgency⟩]
          else Except.ok []

/-! ## config.py — raw keyword validation

Before `_validate_config` runs, a keyword entry is a YAML dict; its values
for this fragment are strings or numbers.  `_validate_config` checks, in
order: `pattern` present, `action` present, `pattern` a string.  It never
compiles regex patterns. -/

inductive PyVal where
  | str (s : String)
  | int (n : Int)
deriving DecidableEq, Repr

/-- The keyword checks of `_validate_config` (config.py) for one entry. -/
def validateKeyword (kw : List (String × PyVal)) : Except String Unit :=
  match kw.lookup "pattern" with
  | none => Except.error "missing required field pattern"
  | some p =>
    match kw.lookup "action" with
    | none => Except.error "missing required field action"
    | some _ =>
      match p with
      | PyVal.str _ => Except.ok ()
      | _ => Except.error "pattern must be a string"

/-- `_parse_action` from config.py. -/
def parse_action (value : String) : Except String FilterAction :=
  if value = "skip" then Except.ok FilterAction.SKIP
  else if value = "classify" then Except.ok FilterAction.CLASSIFY
  else if value = "force_notify" then Except.ok FilterAction.FORCE_NOTIFY
  else Except.error ("Invalid action " ++ value)

/-! ## Helper lemmas -/

deriving instance DecidableEq for Except

/-- The empty needle occurs in every haystack (Python: `"" in s` is `True`). -/
theorem strIn_nil (l : List Char) : strIn [] l = true := by
  cases l <;> simp [strIn, isPrefOf]

/-- With IGNORECASE, a derivative depends on the subject character only
through its lowercase image. -/
theorem deriv_lower (r : RE) (c1 c2 : Char) (h : lowerChar c1 = lowerChar c2) :
    deriv true r c1 = deriv true r c2 := by
  simp [deriv, h]

/-- With IGNORECASE, prefix matching depends only on the lowercase image of
the text. -/
theorem reMatchFrom_lower (l1 : List Char) :
    ∀ (r : RE) (l2 : List Char), l1.map lowerChar = l2.map lowerChar →
      reMatchFrom true r l1 = reMatchFrom true r l2 := by
  induction l1 with
  | nil =>
    intro r l2 h
    cases l2 with
    | nil => rfl
    | cons d ds => simp at h
  | cons c cs ih =>
    intro r l2 h
    cases l2 with
    | nil => simp at h
    | cons d ds =>
      simp only [List.map, List.cons.injEq] at h
      obtain ⟨h1, h2⟩ := h
      simp only [reMatchFrom]
      rw [deriv_lower r c d h1, ih (deriv true r d) ds h2]

/-- With IGNORECASE, `re.search` depends only on the lowercase image of the
text. -/
theorem reSearch_lower (l1 : List Char) :
    ∀ (r : RE) (l2 : List Char), l1.map lowerChar = l2.map lowerChar →
      reSearch true r l1 = reSearch true r l2 := by
  induction l1 with
  | nil =>
    intro r l2 h
    cases l2 with
    | nil => rfl
    | cons d ds => simp at h
  | cons c cs ih =>
    intro r l2 h
    cases l2 with
    | nil => simp at h
    | cons d ds =>
      simp only [reSearch]
      rw [reMatchFrom_lower (c :: cs) r (d :: ds) h]
      simp only [List.map, List.cons.injEq] at h
      rw [ih r ds h.2]

/-- One unfolding step of the keyword loop. -/
theorem keywordScan_cons (kw : Keyword) (rest : List Keyword) (text : String) :
    keywordScan (kw :: rest) text =
      match keywordMatch kw.pattern text with
      | Except.error e => Except.error e
      | Except.ok true =>
          Except.ok (some ⟨kw.action, "keyword:" ++ kw.pattern⟩)
      | Except.ok false => keywordScan rest text := rfl

/-- The keyword loop picks the first matching entry. -/
theorem keywordScan_first (text : String) (pre : List Keyword) :
    ∀ (kw : Keyword) (post : List Keyword),
      (∀ k ∈ pre, keywordMatch k.pattern text = Except.ok false) →
      keywordMatch kw.pattern text = Except.ok true →
      keywordScan (pre ++ kw :: post) text =
        Except.ok (some ⟨kw.action, "keyword:" ++ kw.pattern⟩) := by
  induction pre with
  | nil =>
    intro kw post _ hm
    rw [List.nil_append, keywordScan_cons, hm]
  | cons k ks ih =>
    intro kw post hpre hm
    have hk : keywordMatch k.pattern text = Except.ok false := hpre k (by simp)
    rw [List.cons_append, keywordScan_cons, hk]
    exact ih kw post (fun k2 h2 => hpre k2 (by simp [h2])) hm

/-- The keyword loop cannot fail when every regex-tagged pattern compiles. -/
theorem keywordScan_total (text : String) (kws : List Keyword) :
    (∀ kw ∈ kws, strStartsWith kw.pattern "regex:" = true →
        (compileRegex (String.drop kw.pattern 6)).isOk = true) →
    ∃ o, keywordScan kws text = Except.ok o := by
  induction kws with
  | nil => intro _; exact ⟨none, rfl⟩
  | cons kw rest ih =>
    intro h
    by_cases hs : strStartsWith kw.pattern "regex:"
    · cases hcr : compileRegex (String.drop kw.pattern 6) with
      | error e =>
        have := h kw (by simp) hs
        rw [hcr] at this
        simp [Except.isOk, Except.toBool] at this
      | ok r =>
        cases hse : reSearch true r text.data with
        | true =>
          refine ⟨some ⟨kw.action, "keyword:" ++ kw.pattern⟩, ?_⟩
          simp [keywordScan, keywordMatch, hs, hcr, hse]
        | false =>
          obtain ⟨o, ho⟩ := ih (fun k2 h2 => h k2 (by simp [h2]))
          refine ⟨o, ?_⟩
          simp [keywordScan, keywordMatch, hs, hcr, hse, ho]
    · cases hsi : strIn (lowerStr kw.pattern.data) (lowerStr text.data) with
      | true =>
        refine ⟨some ⟨kw.action, "keyword:" ++ kw.pattern⟩, ?_⟩
        simp [keywordScan, keywordMatch, hs, hsi]
      | false =>
        obtain ⟨o, ho⟩ := ih (fun k2 h2 => h k2 (by simp [h2]))
        refine ⟨o, ?_⟩
        simp [keywordScan, keywordMatch, hs, hsi, ho]

/-! ## Shared concrete fixtures (mirroring the test helpers `make_msg`,
`make_config`) -/

def msgBase : SlackMessage :=
  ⟨"#general", "C123", "alice", "U_ALICE", "hello world", none, false, false, false⟩

/-- A message from the bot itself with every other trigger switched on. -/
def msgSelf : SlackMessage :=
  ⟨"#general", "C123", "the bot", "U_BOT", "urgent hello", none, true, true, true⟩

/-- A bot message whose text matches the keyword of `cfgBots`. -/
def msgBot : SlackMessage :=
  ⟨"#general", "C123", "jenkins", "U_JENKINS", "hello world", none, false, false, true⟩

def cfgSelf : Config :=
  ⟨"llama3.2:3b", "http://localhost:11434", 3, 3, "triage prompt", DEFAULT_RULES,
   [("#general", FilterAction.FORCE_NOTIFY)],
   [⟨"urgent", FilterAction.FORCE_NOTIFY⟩], 10⟩

def cfgBots : Config :=
  ⟨"llama3.2:3b", "http://localhost:11434", 3, 3, "triage prompt", DEFAULT_RULES,
   [], [⟨"hello", FilterAction.FORCE_NOTIFY⟩], 10⟩

/-! ## Claims -/

/-- C4: a message whose `sender_id` equals the bot's own user id always gets
the decision `⟨config.rules.self, "self"⟩`, whatever the other message
fields and the rest of the configuration are. -/
theorem pre_filter_self_rule (msg : SlackMessage) (config : Config)
    (bot_user_id : String) (h : msg.sender_id = bot_user_id) :
    pre_filter msg config bot_user_id = Except.ok ⟨config.rules.self, "self"⟩ := by
  simp [pre_filter, h]

theorem pre_filter_self_rule_witness :
    pre_filter msgSelf cfgSelf "U_BOT" =
      Except.ok ⟨FilterAction.SKIP, "self"⟩ :=
  pre_filter_self_rule msgSelf cfgSelf "U_BOT" rfl

/-- C5: a bot message (not from the bot itself) always gets the decision
`⟨config.rules.bots, "bots"⟩`, even when a keyword entry would match. -/
theorem pre_filter_bots_rule (msg : SlackMessage) (config : Config)
    (bot_user_id : String) (h1 : ¬ msg.sender_id = bot_user_id)
    (h2 : msg.is_bot = true) :
    pre_filter msg config bot_user_id = Except.ok ⟨config.rules.bots, "bots"⟩ := by
  simp [pre_filter, h1, h2]

theorem pre_filter_bots_rule_witness :
    pre_filter msgBot cfgBots "U_BOT" =
      Except.ok ⟨FilterAction.SKIP, "bots"⟩ :=
  pre_filter_bots_rule msgBot cfgBots "U_BOT" (by decide) rfl

/-- C9: `_urgency_level` maps scores 1 and 2 to "low", 3 to "normal",
4 and 5 to "critical", and an absent score to "normal". -/
theorem urgency_level_mapping :
    urgency_level (some 1) = "low" ∧
    urgency_level (some 2) = "low" ∧
    urgency_level (some 3) = "normal" ∧
    urgency_level (some 4) = "critical" ∧
    urgency_level (some 5) = "critical" ∧
    urgency_level none = "normal" := by
  refine ⟨rfl, rfl, rfl, rfl, rfl, rfl⟩

/-- C10: a keyword entry whose pattern is the empty string (no `regex:` tag)
matches every message reaching the keyword step, so its action is returned
with rule `"keyword:"`, shadowing every later entry and all contextual
rules. -/
theorem empty_pattern_matches_all (msg : SlackMessage) (config : Config)
    (bot_user_id : String) (a : FilterAction) (rest : List Keyword)
    (h1 : ¬ msg.sender_id = bot_user_id) (h2 : msg.is_bot = false)
    (h3 : config.keywords = ⟨"", a⟩ :: rest) :
    pre_filter msg config bot_user_id = Except.ok ⟨a, "keyword:"⟩ := by
  have h0 : keywordMatch "" msg.text = Except.ok true := by
    simp [keywordMatch, strIn_nil, lowerStr,
      show (strStartsWith "" "regex:") = false from rfl]
  simp [pre_filter, h1, h2, h3, keywordScan, h0]

def msgEmptyKw : SlackMessage :=
  ⟨"#general", "C123", "alice", "U_ALICE", "", none, true, true, false⟩

def cfgEmptyKw : Config :=
  ⟨"llama3.2:3b", "http://localhost:11434", 3, 3, "triage prompt", DEFAULT_RULES,
   [("#general", FilterAction.CLASSIFY)],
   [⟨"", FilterAction.FORCE_NOTIFY⟩, ⟨"later", FilterAction.SKIP⟩], 10⟩

theorem empty_pattern_matches_all_witness :
    pre_filter msgEmptyKw cfgEmptyKw "U_BOT" =
      Except.ok ⟨FilterAction.FORCE_NOTIFY, "keyword:"⟩ :=
  empty_pattern_matches_all msgEmptyKw cfgEmptyKw "U_BOT"
    FilterAction.FORCE_NOTIFY [⟨"later", FilterAction.SKIP⟩]
    (by decide) rfl rfl

/-- Message with text "ALERT now" reaching the keyword step. -/
def msgDup : SlackMessage :=
  ⟨"#general", "C123", "alice", "U_ALICE", "ALERT now", none, true, true, false⟩

/-- Two keyword entries with the identical pattern and differing actions. -/
def cfgDup : Config :=
  ⟨"llama3.2:3b", "http://localhost:11434", 3, 3, "triage prompt", DEFAULT_RULES,
   [], [⟨"alert", FilterAction.FORCE_NOTIFY⟩, ⟨"alert", FilterAction.SKIP⟩], 10⟩

/-- C6: keyword matching is case-insensitive for both the plain-substring
form and the regex-tagged form (it depends only on the lowercase image of
the message text); among all matching entries the first in list order
determines action and rule identifier (which embeds the pattern string);
and concretely, with two entries of identical pattern and differing actions
the earlier entry's action is returned. -/
theorem keyword_first_match_case_insensitive :
    (∀ (p t1 t2 : String), lowerStr t1.data = lowerStr t2.data →
      keywordMatch p t1 = keywordMatch p t2) ∧
    (∀ (msg : SlackMessage) (config : Config) (bot_user_id : String)
        (pre : List Keyword) (kw : Keyword) (post : List Keyword),
      ¬ msg.sender_id = bot_user_id → msg.is_bot = false →
      config.keywords = pre ++ kw :: post →
      (∀ k ∈ pre, keywordMatch k.pattern msg.text = Except.ok false) →
      keywordMatch kw.pattern msg.text = Except.ok true →
      pre_filter msg config bot_user_id =
        Except.ok ⟨kw.action, "keyword:" ++ kw.pattern⟩) ∧
    pre_filter msgDup cfgDup "U_BOT" =
      Except.ok ⟨FilterAction.FORCE_NOTIFY, "keyword:alert"⟩ := by
  refine ⟨?_, ?_, by decide⟩
  · intro p t1 t2 h
    simp only [lowerStr] at h
    by_cases hs : strStartsWith p "regex:"
    · simp only [keywordMatch, hs, if_true]
      cases compileRegex (String.drop p 6) with
      | error e => rfl
      | ok r =>
        show Except.ok (reSearch true r t1.data) =
          Except.ok (reSearch true r t2.data)
        rw [reSearch_lower t1.data r t2.data h]
    · simp only [keywordMatch, hs, Bool.false_eq_true, if_false, lowerStr]
      rw [h]
  · intro msg config bot_user_id pre kw post h1 h2 h3 hpre hm
    simp only [pre_filter, h1, if_false, h2, Bool.false_eq_true]
    rw [h3, keywordScan_first msg.text pre kw post hpre hm]

def msgKw : SlackMessage :=
  ⟨"#general", "C123", "alice", "U_ALICE", "deploy now", none, false, false, false⟩

def cfgKw : Config :=
  ⟨"llama3.2:3b", "http://localhost:11434", 3, 3, "triage prompt", DEFAULT_RULES,
   [], [⟨"nomatch", FilterAction.FORCE_NOTIFY⟩, ⟨"deploy", FilterAction.SKIP⟩], 10⟩

theorem keyword_first_match_case_insensitive_witness :
    keywordMatch "prod" "Big PROD down" = keywordMatch "prod" "big prod DOWN" ∧
    pre_filter msgKw cfgKw "U_BOT" =
      Except.ok ⟨FilterAction.SKIP, "keyword:deploy"⟩ := by
  have h := keyword_first_match_case_insensitive
  exact ⟨h.1 "prod" "Big PROD down" "big prod DOWN" (by decide),
    h.2.1 msgKw cfgKw "U_BOT" [⟨"nomatch", FilterAction.FORCE_NOTIFY⟩]
      ⟨"deploy", FilterAction.SKIP⟩ [] (by decide) rfl rfl
      (by decide) (by decide)⟩

/-- A configuration whose regex-tagged keyword pattern does not compile
(`re.compile("[")` raises `re.error`), after passing load-time validation. -/
def cfgBadRegex : Config :=
  ⟨"llama3.2:3b", "http://localhost:11434", 3, 3, "triage prompt", DEFAULT_RULES,
   [], [⟨"regex:[", FilterAction.SKIP⟩], 10⟩

/-- C3 counterexample: the raw keyword entry `{pattern: "regex:[",
action: "skip"}` passes every load-time check (`_validate_config` checks
presence of `pattern`/`action` and that `pattern` is a string; it never
compiles regexes, and `_parse_action` accepts "skip") — yet `pre_filter`
fails at runtime on that configuration when a message reaches the keyword
step, so `evaluate` is not total and the compile failure is not a
configuration-load-time error. -/
theorem invalid_regex_reaches_runtime :
    validateKeyword
      [("pattern", PyVal.str "regex:["), ("action", PyVal.str "skip")] =
        Except.ok () ∧
    parse_action "skip" = Except.ok FilterAction.SKIP ∧
    (pre_filter msgBase cfgBadRegex "U_BOT").isOk = false := by
  refine ⟨rfl, rfl, by decide⟩

/-- C3 amended: `pre_filter` is total for every message and every
configuration whose regex-tagged keyword patterns all compile; load-time
validation does not compile regex patterns, so a non-compiling regex
pattern surfaces as a runtime `re.error` inside `pre_filter` instead. -/
theorem pre_filter_total_when_regexes_compile (msg : SlackMessage)
    (config : Config) (bot_user_id : String)
    (h : ∀ kw ∈ config.keywords, strStartsWith kw.pattern "regex:" = true →
        (compileRegex (String.drop kw.pattern 6)).isOk = true) :
    ∃ r, pre_filter msg config bot_user_id = Except.ok r := by
  by_cases h1 : msg.sender_id = bot_user_id
  · exact ⟨⟨config.rules.self, "self"⟩, by simp [pre_filter, h1]⟩
  · cases h2 : msg.is_bot with
    | true => exact ⟨⟨config.rules.bots, "bots"⟩, by simp [pre_filter, h1, h2]⟩
    | false =>
      obtain ⟨o, ho⟩ := keywordScan_total msg.text config.keywords h
      cases o with
      | some fr => exact ⟨fr, by simp [pre_filter, h1, h2, ho]⟩
      | none =>
        cases h4 : msg.is_mention with
        | true =>
          exact ⟨⟨config.rules.mentions, "mentions"⟩,
            by simp [pre_filter, h1, h2, ho, h4]⟩
        | false =>
          cases h5 : msg.is_dm with
          | true =>
            exact ⟨⟨config.rules.dms, "dms"⟩,
              by simp [pre_filter, h1, h2, ho, h4, h5]⟩
          | false =>
            cases h6 : config.channels.lookup msg.channel with
            | some a =>
              exact ⟨⟨a, "channel:" ++ msg.channel⟩,
                by simp [pre_filter, h1, h2, ho, h4, h5, h6]⟩
            | none =>
              exact ⟨⟨config.rules.default, "default"⟩,
                by simp [pre_filter, h1, h2, ho, h4, h5, h6]⟩

/-- A configuration whose regex-tagged keyword pattern does compile. -/
def cfgGoodRegex : Config :=
  ⟨"llama3.2:3b", "http://localhost:11434", 3, 3, "triage prompt", DEFAULT_RULES,
   [], [⟨"regex:p[0-1] incident", FilterAction.FORCE_NOTIFY⟩], 10⟩

theorem pre_filter_total_when_regexes_compile_witness :
    ∃ r, pre_filter msgBase cfgGoodRegex "U_BOT" = Except.ok r :=
  pre_filter_total_when_regexes_compile msgBase cfgGoodRegex "U_BOT" (by decide)

/-- C1: on a connection failure or a timeout, `classify` returns a
classification whose urgency equals the configured threshold exactly and
whose reason contains "unavailable", so on the classify path the inclusive
threshold comparison in `handle_message` fires and exactly one notification
is sent. -/
theorem classifier_fallback_fail_open (msg : SlackMessage) (config : Config)
    (bot_user_id : String) (e rule : String) (hv : ValidConfig config)
    (hp : pre_filter msg config bot_user_id =
      Except.ok ⟨FilterAction.CLASSIFY, rule⟩) :
    classify msg config (LLMOutcome.connError e) =
      Except.ok ⟨config.urgency_threshold, FALLBACK_REASON⟩ ∧
    classify msg config (LLMOutcome.timeoutErr e) =
      Except.ok ⟨config.urgency_threshold, FALLBACK_REASON⟩ ∧
    strIn "unavailable".data FALLBACK_REASON.data = true ∧
    handle_message (some msg) config bot_user_id (LLMOutcome.connError e) =
      Except.ok [⟨msg, FALLBACK_REASON, some config.urgency_threshold⟩] ∧
    handle_message (some msg) config bot_user_id (LLMOutcome.timeoutErr e) =
      Except.ok [⟨msg, FALLBACK_REASON, some config.urgency_threshold⟩] := by
  have hc : classify msg config (LLMOutcome.connError e) =
      Except.ok ⟨config.urgency_threshold, FALLBACK_REASON⟩ := rfl
  have ht : classify msg config (LLMOutcome.timeoutErr e) =
      Except.ok ⟨config.urgency_threshold, FALLBACK_REASON⟩ := rfl
  refine ⟨hc, ht, by decide, ?_, ?_⟩
  · simp [handle_message, hp, hc]
  · simp [handle_message, hp, ht]

theorem classifier_fallback_fail_open_witness :
    classify msgBase defaultConfig (LLMOutcome.connError "refused") =
      Except.ok ⟨3, FALLBACK_REASON⟩ ∧
    handle_message (some msgBase) defaultConfig "U_BOT"
        (LLMOutcome.connError "refused") =
      Except.ok [⟨msgBase, FALLBACK_REASON, some 3⟩] := by
  have h := classifier_fallback_fail_open msgBase defaultConfig "U_BOT"
    "refused" "default" (by decide) rfl
  exact ⟨h.1, h.2.2.2.1⟩

/-- C2 at the failing input: a non-2xx HTTP response makes
`resp.raise_for_status()` raise `requests.HTTPError`, which neither
`except` clause of `classify` catches (`HTTPError` is an `OSError`
subclass, not a `ConnectionError`/`Timeout`/`ValueError`), so `classify`
raises outward — and `handle_message` aborts with no notification. -/
theorem classify_raises_on_http_error :
    classify msgBase defaultConfig
        (LLMOutcome.response 500 (some (JVal.obj []))) =
      Except.error (PyErr.httpError 500) ∧
    handle_message (some msgBase) defaultConfig "U_BOT"
        (LLMOutcome.response 500 (some (JVal.obj []))) =
      Except.error (HandlerErr.llmErr (PyErr.httpError 500)) := by
  refine ⟨by decide, by decide⟩

/-- C7: on the classify path the threshold comparison is inclusive —
a classification whose urgency equals the configured threshold produces
exactly one notification, one strictly below produces none. -/
theorem threshold_inclusive (msg : SlackMessage) (config : Config)
    (bot_user_id : String) (outcome : LLMOutcome) (rule : String)
    (cl : Classification) (hv : ValidConfig config)
    (hp : pre_filter msg config bot_user_id =
      Except.ok ⟨FilterAction.CLASSIFY, rule⟩)
    (hc : classify msg config outcome = Except.ok cl) :
    (cl.urgency = config.urgency_threshold →
      handle_message (some msg) config bot_user_id outcome =
        Except.ok [⟨msg, cl.reason, some cl.urgency⟩]) ∧
    (cl.urgency < config.urgency_threshold →
      handle_message (some msg) config bot_user_id outcome =
        Except.ok []) := by
  constructor
  · intro he
    simp [handle_message, hp, hc, he]
  · intro hlt
    have hnot : ¬ cl.urgency ≥ config.urgency_threshold := by omega
    simp [handle_message, hp, hc, hnot]

/-- The parsed `resp.json()` payload of a successful Ollama reply whose
inner content carries the given urgency. -/
def okData (u : Int) : JVal :=
  JVal.obj [("message", JVal.obj
    [("role", JVal.str "assistant"),
     ("content", JVal.str
       ("\x7b\"urgency\": " ++ toString u ++ ", \"reason\": \"deploy broken\"\x7d"))])]

def okOutcome (u : Int) : LLMOutcome :=
  LLMOutcome.response 200 (some (okData u))

theorem threshold_inclusive_witness :
    handle_message (some msgBase) defaultConfig "U_BOT" (okOutcome 3) =
      Except.ok [⟨msgBase, "deploy broken", some 3⟩] ∧
    handle_message (some msgBase) defaultConfig "U_BOT" (okOutcome 2) =
      Except.ok [] := by
  have h3 := threshold_inclusive msgBase defaultConfig "U_BOT" (okOutcome 3)
    "default" ⟨3, "deploy broken"⟩ (by decide) rfl (by decide)
  have h2 := threshold_inclusive msgBase defaultConfig "U_BOT" (okOutcome 2)
    "default" ⟨2, "deploy broken"⟩ (by decide) rfl (by decide)
  exact ⟨h3.1 rfl, h2.2 (by decide)⟩

/-- C8: on every successfully parsed response the returned urgency is the
raw integer clamped into [1, 5] by `max(1, min(5, urgency))`; concretely,
raw values 0, -3 and 7 become 1, 1 and 5, while 1 and 5 pass through. -/
theorem classify_clamps_urgency :
    (∀ (msg : SlackMessage) (config : Config) (st : Nat) (data : JVal)
        (u : Int) (r : String),
      ¬ (400 ≤ st ∧ st < 600) → parseContent data = Except.ok (u, r) →
      classify msg config (LLMOutcome.response st (some data)) =
        Except.ok ⟨max 1 (min 5 u), r⟩) ∧
    classify msgBase defaultConfig (okOutcome 0) =
      Except.ok ⟨1, "deploy broken"⟩ ∧
    classify msgBase defaultConfig (okOutcome (-3)) =
      Except.ok ⟨1, "deploy broken"⟩ ∧
    classify msgBase defaultConfig (okOutcome 7) =
      Except.ok ⟨5, "deploy broken"⟩ ∧
    classify msgBase defaultConfig (okOutcome 1) =
      Except.ok ⟨1, "deploy broken"⟩ ∧
    classify msgBase defaultConfig (okOutcome 5) =
      Except.ok ⟨5, "deploy broken"⟩ := by
  refine ⟨?_, by decide, by decide, by decide, by decide, by decide⟩
  intro msg config st data u r hst hp
  simp [classify, hst, hp]

theorem classify_clamps_urgency_witness :
    classify msgBase defaultConfig (LLMOutcome.response 200 (some (okData 7))) =
      Except.ok ⟨max 1 (min 5 7), "deploy broken"⟩ :=
  classify_clamps_urgency.1 msgBase defaultConfig 200 (okData 7) 7
    "deploy broken" (by decide) (by decide)

end ClassyNotifier
